import Mathlib

/-!
Shallow embedding of the OSINT Telegram bot, from `main.py` (class `OSINTBot`)
and `subscription_manager.py` (class `SubscriptionManager`).

Strings are modelled over their character lists; machine-level details of the
Telegram transport are abstracted as an `Action` trace emitted by each command
handler.  The user/subscription store (`database.py`, imported by the source
but not part of the reviewed tree) is modelled from the spec where needed.
-/

/-- The apostrophe character, used when rebuilding Python message text. -/
def squote : String := String.singleton (Char.ofNat 39)

/-- Python `str.strip` default whitespace set, restricted to ASCII
(the classifier inputs of interest contain only ASCII). -/
def isPyWS (c : Char) : Bool :=
  c == ' ' || c == '\t' || c == '\n' || c == '\r' || c == '\x0b' || c == '\x0c'

/-- Python `str.strip()`: drop leading and trailing whitespace. -/
def pyStrip (cs : List Char) : List Char :=
  ((cs.dropWhile isPyWS).reverse.dropWhile isPyWS).reverse

/-- ASCII decimal digit, the `\d` class of the source regexes
(restricted to ASCII; the claims concern ASCII digits). -/
def digitB (c : Char) : Bool := 48 ≤ c.toNat && c.toNat ≤ 57

/-- ASCII upper-case letter, the `[A-Z]` class of the source regexes. -/
def upperB (c : Char) : Bool := 65 ≤ c.toNat && c.toNat ≤ 90

/-- ASCII lower-case letter. -/
def lowerB (c : Char) : Bool := 97 ≤ c.toNat && c.toNat ≤ 122

/-- ASCII letter. -/
def alphaB (c : Char) : Bool := upperB c || lowerB c

/-- ASCII letter or digit. -/
def alnumB (c : Char) : Bool := alphaB c || digitB c

/-- Python `str.upper()` on one character (ASCII case map, as used by the
vehicle-plate branch of `validate_input`). -/
def pyUpperChar (c : Char) : Char :=
  if lowerB c then Char.ofNat (c.toNat - 32) else c

/-- Python `str.lower()` on one character (ASCII case map). -/
def pyLowerChar (c : Char) : Char :=
  if upperB c then Char.ofNat (c.toNat + 32) else c

/-- Python `str.upper()` (ASCII). -/
def pyUpper (s : String) : String := String.mk (s.data.map pyUpperChar)

/-- Take exactly `n` characters satisfying `p`, returning the remainder;
`none` if fewer than `n` such characters are available at the front. -/
def takeCount (p : Char → Bool) : Nat → List Char → Option (List Char)
  | 0, cs => some cs
  | _ + 1, [] => none
  | n + 1, c :: cs => if p c then takeCount p n cs else none

/-- The vehicle-plate regex `^[A-Z]{2}\d{1,2}[A-Z]{0,2}\d{4}$` of
`validate_input`.  The regex matches exactly when some decomposition with
2 letters, `d ∈ {1,2}` digits, `l ∈ {0,1,2}` letters and 4 digits consumes
the whole string, which the bounded enumeration below reproduces. -/
def vehicleMatch (cs : List Char) : Bool :=
  [1, 2].any fun d =>
    [0, 1, 2].any fun l =>
      match takeCount upperB 2 cs with
      | none => false
      | some r1 =>
        match takeCount digitB d r1 with
        | none => false
        | some r2 =>
          match takeCount upperB l r2 with
          | none => false
          | some r3 =>
            match takeCount digitB 4 r3 with
            | none => false
            | some r4 => r4.isEmpty

/-- Split a character list on a separator character; `n` separators produce
`n + 1` groups (the behaviour of Python `str.split(sep)`). -/
def splitSep (sep : Char) : List Char → List (List Char)
  | [] => [[]]
  | c :: cs =>
    let r := splitSep sep cs
    if c == sep then [] :: r
    else
      match r with
      | [] => [[c]]
      | g :: gs => (c :: g) :: gs

/-- The `^\+91\d{10}$` regex of `validate_input`. -/
def plus91 (cs : List Char) : Bool :=
  cs.length == 13 && cs.take 3 == ['+', '9', '1'] && (cs.drop 3).all digitB

/-- The local-part class `[a-zA-Z0-9._-]` of the UPI/handle regex. -/
def localChar (c : Char) : Bool :=
  alnumB c || c == '.' || c == '_' || c == '-'

/-- The domain-part class `[a-zA-Z0-9.-]` of the UPI/handle regex. -/
def domChar (c : Char) : Bool :=
  alnumB c || c == '.' || c == '-'

/-- The handle regex `^[a-zA-Z0-9._-]+@[a-zA-Z0-9.-]+$`: exactly one `@`
(neither class contains `@`), with non-empty matching sides. -/
def handleMatch (cs : List Char) : Bool :=
  match splitSep '@' cs with
  | [l, r] => !l.isEmpty && l.all localChar && !r.isEmpty && r.all domChar
  | _ => false

/-- `query.endswith(('.com', '.org', '.net', '.edu', '.gov'))`. -/
def tldSuffix (cs : List Char) : Bool :=
  [".com", ".org", ".net", ".edu", ".gov"].any fun t => t.data.isSuffixOf cs

/-- Modelled from the `validators` library email check called by
`validate_input`: local part, one `@`, and a domain accepted by the
library's domain pattern.  Only reachable for `@`-containing strings that
already failed the handle regex; no claim depends on its positive cases. -/
def validatorsEmail (cs : List Char) : Bool :=
  match splitSep '@' cs with
  | [l, r] => !l.isEmpty && l.all (fun c => localChar c || c == '+') && validatorsDomainB r
  | _ => false
where
  /-- Modelled from the `validators` library domain pattern
  `^(?:[a-zA-Z0-9](?:[a-zA-Z0-9-_]{0,61}[a-zA-Z0-9])?\.)+[A-Za-z0-9][A-Za-z0-9-_]{0,61}[A-Za-z]$`:
  at least two dot-separated labels, each starting alphanumeric, and a TLD
  whose final character is an ASCII letter. -/
  validatorsDomainB (cs : List Char) : Bool :=
    let parts := splitSep '.' cs
    decide (2 ≤ parts.length)
      && parts.dropLast.all (fun l =>
          !l.isEmpty && decide (l.length ≤ 63)
            && alnumB (l.headD ' ') && alnumB (l.getLastD ' ')
            && l.all (fun c => alnumB c || c == '-' || c == '_'))
      && (let t := parts.getLastD []
          decide (2 ≤ t.length) && decide (t.length ≤ 63)
            && alnumB (t.headD ' ')
            && t.all (fun c => alnumB c || c == '-' || c == '_')
            && alphaB (t.getLastD ' '))

/-- Modelled from the `validators` library domain check used by
`validate_input` (same pattern as in `validatorsEmail`). -/
def validatorsDomain (cs : List Char) : Bool :=
  validatorsEmail.validatorsDomainB cs

/-- One dotted-quad octet as accepted by the `ipaddress` library
(1–3 digits, value ≤ 255, no leading zero). -/
def octetOk (g : List Char) : Bool :=
  !g.isEmpty && g.all digitB && decide (g.length ≤ 3)
    && decide (g.foldl (fun a c => a * 10 + (c.toNat - 48)) 0 ≤ 255)
    && (g.length == 1 || !(g.headD ' ' == '0'))

/-- Modelled from the `ipaddress` library: an IPv4 literal is a dotted quad
of valid octets; every IPv6 literal contains a colon and only hexadecimal
digits, colons and dots (finer IPv6 validation is irrelevant here because no
claim involves colon-containing inputs). -/
def ipLiteral (cs : List Char) : Bool :=
  (match splitSep '.' cs with
   | [a, b, c, d] => octetOk a && octetOk b && octetOk c && octetOk d
   | _ => false)
  || (cs.any (· == ':')
        && cs.all (fun c => digitB c || c == ':' || c == '.'
            || (97 ≤ c.toNat && c.toNat ≤ 102) || (65 ≤ c.toNat && c.toNat ≤ 70)))

/-- Modelled from the `validators` library URL check used by
`validate_input`: a non-empty alphabetic scheme, the literal `://`, and a
non-empty whitespace-free remainder. -/
def validatorsUrl (cs : List Char) : Bool :=
  let scheme := cs.takeWhile alphaB
  let rest := cs.drop scheme.length
  !scheme.isEmpty && rest.take 3 == [':', '/', '/']
    && decide (3 < rest.length) && cs.all (fun c => !isPyWS c)

/-- The username class `[a-zA-Z0-9._-]` of the final branch. -/
def userChar (c : Char) : Bool :=
  alnumB c || c == '.' || c == '_' || c == '-'

/-- Result of `OSINTBot.validate_input`: either a typed, normalized value or
an error message. -/
inductive ClassifiedQuery where
  | valid (type value : String)
  | invalid (error : String)
deriving DecidableEq

/-- Error text of the final `validate_input` branch. -/
def invalidAllText : String :=
  "Invalid input. Please provide a valid phone number, Aadhaar number, vehicle number, UPI ID, email, IP address, domain, URL, or username."

/-- `OSINTBot.validate_input` (main.py lines 128–194): strip, then
first-match-wins classification. -/
def validate_input (query : String) : ClassifiedQuery :=
  let cs := pyStrip query.data
  if cs.isEmpty then .invalid "Empty input provided"
  else if cs.length == 10 && cs.all digitB then .valid "phone" (String.mk cs)
  else if plus91 cs then .valid "phone" (String.mk (cs.drop 3))
  else if cs.length == 12 && cs.all digitB then .valid "aadhaar" (String.mk cs)
  else if vehicleMatch (cs.map pyUpperChar) then
    .valid "vehicle" (String.mk (cs.map pyUpperChar))
  else if cs.any (· == '@') && handleMatch cs then
    (if tldSuffix cs then .valid "email" (String.mk cs)
     else .valid "upi" (String.mk cs))
  else if cs.any (· == '@') && validatorsEmail cs then .valid "email" (String.mk cs)
  else if ipLiteral cs then .valid "ip" (String.mk cs)
  else if validatorsDomain cs then .valid "domain" (String.mk cs)
  else if validatorsUrl cs then .valid "url" (String.mk cs)
  else if cs.all userChar && decide (3 ≤ cs.length) then
    .valid "username" (String.mk cs)
  else .invalid invalidAllText

/-- The detected type of a classification result, if valid. -/
def resultType : ClassifiedQuery → Option String
  | .valid t _ => some t
  | .invalid _ => none

example : validate_input "9177075666" = .valid "phone" "9177075666" := by decide
example : validate_input "+919177075666" = .valid "phone" "9177075666" := by decide
example : validate_input "123456789012" = .valid "aadhaar" "123456789012" := by decide
example : validate_input "JK05F1806" = .valid "vehicle" "JK05F1806" := by decide
example : validate_input "mh12ab1234" = .valid "vehicle" "MH12AB1234" := by decide
example : validate_input "DL1CAB1234" = .valid "username" "DL1CAB1234" := by decide
example : validate_input "user@paytm" = .valid "upi" "user@paytm" := by decide
example : validate_input "user@example.com" = .valid "email" "user@example.com" := by decide
example : validate_input "192.168.1.1" = .valid "ip" "192.168.1.1" := by decide
example : validate_input "example.com" = .valid "domain" "example.com" := by decide
example : validate_input "http://example.com" = .valid "url" "http://example.com" := by decide
example : validate_input "123" = .valid "username" "123" := by decide
example : validate_input "12345678901" = .valid "username" "12345678901" := by decide
example : validate_input "1234 5678 9012" = .invalid invalidAllText := by decide
example : validate_input "1234-5678-9012" = .valid "username" "1234-5678-9012" := by decide
example : validate_input " 1234567890" = .valid "phone" "1234567890" := by decide
example : validate_input "" = .invalid "Empty input provided" := by decide
example : validate_input "ab" = .invalid invalidAllText := by decide

/-! ### JSON payloads and the response formatter -/

/-- A parsed JSON value, the shape of the upstream API payload handed to
`format_osint_response`. -/
inductive JVal where
  | null
  | bool (b : Bool)
  | num (n : Int)
  | str (s : String)
  | arr (xs : List JVal)
  | obj (fields : List (String × JVal))

/-- Python truthiness of a JSON value (`if value:`). -/
def pyTruthy : JVal → Bool
  | .null => false
  | .bool b => b
  | .num n => !(n == 0)
  | .str s => !s.isEmpty
  | .arr xs => !xs.isEmpty
  | .obj fs => !fs.isEmpty

mutual
/-- Python `repr` of a parsed JSON value (used inside containers). -/
def pyRepr : JVal → String
  | .null => "None"
  | .bool true => "True"
  | .bool false => "False"
  | .num n => toString n
  | .str s => squote ++ s ++ squote
  | .arr xs => "[" ++ pyReprList xs ++ "]"
  | .obj fs => "\x7b" ++ pyReprFields fs ++ "\x7d"

/-- Comma-joined `repr`s of list elements. -/
def pyReprList : List JVal → String
  | [] => ""
  | [x] => pyRepr x
  | x :: y :: xs => pyRepr x ++ ", " ++ pyReprList (y :: xs)

/-- Comma-joined `repr`s of dict items. -/
def pyReprFields : List (String × JVal) → String
  | [] => ""
  | [(k, v)] => squote ++ k ++ squote ++ ": " ++ pyRepr v
  | (k, v) :: p :: xs =>
    squote ++ k ++ squote ++ ": " ++ pyRepr v ++ ", " ++ pyReprFields (p :: xs)
end

/-- Python `str()` of a parsed JSON value, as interpolated by the f-strings
of `format_osint_response`. -/
def pyStr : JVal → String
  | .str s => s
  | v => pyRepr v

/-- Python `str.title()` after the formatter's `key.replace('_', ' ')`
(uppercase the first letter of each alphabetic run, lowercase the rest). -/
def pyTitleGo : Bool → List Char → List Char
  | _, [] => []
  | prev, c :: cs =>
    (if alphaB c then (if prev then pyLowerChar c else pyUpperChar c) else c)
      :: pyTitleGo (alphaB c) cs

/-- Python `str.title()` (ASCII). -/
def pyTitle (s : String) : String := String.mk (pyTitleGo false s.data)

/-- The per-record field→label table of `format_osint_response`
(main.py lines 356–386; the `�` labels reproduce the mojibake literals of
the source). -/
def recordTable : List (String × String) :=
  [("name", "👤 **Name**"),
   ("fname", "� **Full Name**"),
   ("mobile", "� **Mobile**"),
   ("phone", "📱 **Phone**"),
   ("address", "🏠 **Address**"),
   ("circle", "📡 **Circle**"),
   ("id", "🆔 **ID**"),
   ("email", "📧 **Email**"),
   ("location", "📍 **Location**"),
   ("state", "🏛️ **State**"),
   ("city", "🏙️ **City**"),
   ("pincode", "📮 **Pincode**"),
   ("owner", "👤 **Owner**"),
   ("vehicle_number", "🚗 **Vehicle Number**"),
   ("vehicle_type", "🚙 **Vehicle Type**"),
   ("registration_date", "📅 **Registration Date**"),
   ("bank", "🏦 **Bank**"),
   ("account_type", "💳 **Account Type**"),
   ("branch", "🏢 **Branch**"),
   ("ifsc", "🔢 **IFSC Code**"),
   ("age", "🎂 **Age**"),
   ("gender", "⚧️ **Gender**"),
   ("dob", "🎂 **Date of Birth**"),
   ("father_name", "👨 **Father Name**"),
   ("mother_name", "👩 **Mother Name**"),
   ("status", "✅ **Status**"),
   ("registered", "📝 **Registered**"),
   ("verified", "✅ **Verified**"),
   ("active", "🟢 **Active**")]

/-- The flat-payload field→label table of `format_osint_response`
(main.py lines 409–435; a subset of `recordTable`). -/
def flatTable : List (String × String) :=
  [("name", "👤 **Name**"),
   ("phone", "📱 **Phone**"),
   ("email", "📧 **Email**"),
   ("address", "🏠 **Address**"),
   ("location", "📍 **Location**"),
   ("state", "🏛️ **State**"),
   ("city", "🏙️ **City**"),
   ("pincode", "📮 **Pincode**"),
   ("owner", "👤 **Owner**"),
   ("vehicle_number", "🚗 **Vehicle Number**"),
   ("vehicle_type", "🚙 **Vehicle Type**"),
   ("registration_date", "📅 **Registration Date**"),
   ("bank", "🏦 **Bank**"),
   ("account_type", "💳 **Account Type**"),
   ("branch", "🏢 **Branch**"),
   ("ifsc", "🔢 **IFSC Code**"),
   ("age", "🎂 **Age**"),
   ("gender", "⚧️ **Gender**"),
   ("dob", "🎂 **Date of Birth**"),
   ("father_name", "👨 **Father Name**"),
   ("mother_name", "👩 **Mother Name**"),
   ("status", "✅ **Status**"),
   ("registered", "📝 **Registered**"),
   ("verified", "✅ **Verified**"),
   ("active", "🟢 **Active**")]

/-- One `key: value` line of the formatter: skipped when the value is falsy
or blank after `str()`/`strip()`; otherwise rendered via the field table or
the generic title-cased fallback. -/
def fieldLine (table : List (String × String)) (k : String) (v : JVal) : String :=
  if pyTruthy v && !(String.mk (pyStrip (pyStr v).data)).isEmpty then
    match table.lookup k with
    | some label => label ++ ": " ++ pyStr v ++ "\n"
    | none => "**" ++ pyTitle (k.replace "_" " ") ++ ":** " ++ pyStr v ++ "\n"
  else ""

/-- All field lines of one record, in order. -/
def recordFieldsText (fs : List (String × JVal)) : String :=
  String.join (fs.map fun kv => fieldLine recordTable kv.1 kv.2)

/-- Rendering of the records of a `data` array.  The `Bool` is false when the
iteration raises (a record that is not a mapping has no `.items()`), in which
case the `String` is the text accumulated before the exception. -/
def renderRecords (total : Nat) : Nat → List JVal → String × Bool
  | _, [] => ("", true)
  | i, r :: rest =>
    let hdr := if decide (1 < total) then "**🔍 Record " ++ toString i ++ ":**\n" else ""
    match r with
    | .obj fs =>
      let sep := if decide (i < total) then "\n" else ""
      let t := renderRecords total (i + 1) rest
      (hdr ++ recordFieldsText fs ++ sep ++ t.1, t.2)
    | _ => (hdr, false)

/-- The `try` body of `format_osint_response`: the rendered body text and
whether rendering completed without a Python exception (`False` reproduces
the points where the source raises: `len()` on a non-sized truthy `data`
value, `.items()` on a non-mapping record).  For a truthy string or dict
`data` value, Python iterates its characters or keys, so the first record is
a string and `.items()` raises after the optional record header. -/
def tryBody (data : JVal) : String × Bool :=
  match data with
  | .obj fields =>
    (match fields.lookup "data" with
     | some dv =>
       if pyTruthy dv then
         match dv with
         | .arr rs => renderRecords rs.length 1 rs
         | .str s => ((if decide (1 < s.length) then "**🔍 Record 1:**\n" else ""), false)
         | .obj fs2 => ((if decide (1 < fs2.length) then "**🔍 Record 1:**\n" else ""), false)
         | _ => ("", false)
       else tryBodyRest fields
     | none => tryBodyRest fields)
  | other => ("**Data:** " ++ pyStr other ++ "\n", true)
where
  /-- The `elif 'message' in data` / general-fields branches. -/
  tryBodyRest (fields : List (String × JVal)) : String × Bool :=
    match fields.lookup "message" with
    | some m => ("ℹ️ **" ++ pyStr m ++ "**\n", true)
    | none =>
      let pieces := fields.map fun kv => fieldLine flatTable kv.1 kv.2
      if pieces.all (· == "") then ("❌ **No data found for this query**\n", true)
      else (String.join pieces, true)

/-- The query-type icon of `format_osint_response` (the `phone` icon is the
mojibake replacement character of the source). -/
def queryIcon (query_type : String) : String :=
  if query_type == "phone" then "�"
  else if query_type == "vehicle" then "🚗"
  else if query_type == "aadhaar" then "🆔"
  else if query_type == "upi" then "💳"
  else "🔍"

/-- `OSINTBot.format_osint_response` (main.py lines 318–465).  The footer
lookup `data.get('timestamp', 'Just now')` raises `AttributeError` when
`data` is not a mapping, so a non-mapping payload — and any body-rendering
exception — lands in the `except` fallback, which keeps the text built so
far and appends the truncated raw dump. -/
def format_osint_response (query : String) (data : JVal) (query_type : String) : String :=
  let header := queryIcon query_type ++ " **OSINT Results for:** `" ++ query ++ "`\n"
      ++ "📊 **Query Type:** " ++ pyUpper query_type ++ "\n\n"
  let b := tryBody data
  let fallback := header ++ b.1 ++ "**Raw API Response:**\n```json\n"
      ++ String.mk ((pyStr data).data.take 800) ++ "...\n```"
  if b.2 then
    match data with
    | .obj fields =>
      header ++ b.1 ++ "\n🕐 **Queried:** "
        ++ (match fields.lookup "timestamp" with
            | some v => pyStr v
            | none => "Just now")
    | _ => fallback
  else fallback

example :
    format_osint_response "q" (.str "hello") "phone"
      = "� **OSINT Results for:** `q`\n📊 **Query Type:** PHONE\n\n"
        ++ "**Data:** hello\n"
        ++ "**Raw API Response:**\n```json\nhello...\n```" := by decide

example :
    format_osint_response "q" (.obj [("message", .str "hi")]) "phone"
      = "� **OSINT Results for:** `q`\n📊 **Query Type:** PHONE\n\n"
        ++ "ℹ️ **hi**\n"
        ++ "\n🕐 **Queried:** Just now" := by decide

example :
    format_osint_response "q" (.obj [("message", .str "hi"), ("timestamp", .str "T1")]) "upi"
      = "💳 **OSINT Results for:** `q`\n📊 **Query Type:** UPI\n\n"
        ++ "ℹ️ **hi**\n"
        ++ "\n🕐 **Queried:** T1" := by decide

example :
    format_osint_response "9876543210"
        (.obj [("data", .arr [.obj [("name", .str "Alice"), ("phone", .str "9876543210"), ("notes", .str "")]])])
        "phone"
      = "� **OSINT Results for:** `9876543210`\n📊 **Query Type:** PHONE\n\n"
        ++ "👤 **Name**: Alice\n📱 **Phone**: 9876543210\n"
        ++ "\n🕐 **Queried:** Just now" := by decide

/-! ### OSINT API client -/

/-- Body of an HTTP response: a JSON-parsed value, or raw text when
`response.json()` fails. -/
inductive HttpBody where
  | json (v : JVal)
  | text (t : String)

/-- Outcome of one HTTP attempt inside `call_osint_api`: an HTTP status, or
one of the exception classes the source catches. -/
inductive HttpOutcome where
  | status (code : Nat) (body : HttpBody)
  | connectTimeout
  | readTimeout
  | connectionError
  | otherException

/-- Result of `call_osint_api`: the `{"success": True, "data": …}` /
`{"success": False, "error": …}` dicts of the source. -/
inductive ApiResult where
  | ok (data : JVal)
  | err (msg : String)

/-- Whether an attempt outcome makes `call_osint_api` loop again
(HTTP 429, HTTP ≥ 500, and every caught transport exception). -/
def retryable : HttpOutcome → Bool
  | .status c _ => c == 429 || decide (500 ≤ c)
  | _ => true

/-- The result `call_osint_api` returns when it stops at this outcome —
either immediately (200/404/401/unexpected status) or after exhausting
retries (429, ≥ 500, transport errors).  Mirrors the return statements of
main.py lines 246–305. -/
def terminalResult : HttpOutcome → ApiResult
  | .status c b =>
    if c == 200 then
      match b with
      | .json v => .ok v
      | .text t => .ok (.obj [("raw_response", .str t)])
    else if c == 404 then
      .err "OSINT API service is currently unavailable. The endpoint may be down or moved. Please contact the administrator."
    else if c == 401 then
      .err "API authentication failed - invalid API key"
    else if c == 429 then
      .err "API rate limit exceeded. Please try again later"
    else if decide (500 ≤ c) then
      .err ("API server error (Status " ++ toString c ++ "). Please try again later.")
    else
      .err ("API service error (Status " ++ toString c ++ "). Please try again later or contact the administrator.")
  | .connectTimeout =>
    .err "Connection timeout. The OSINT API service may be down. Please try again later."
  | .readTimeout => .err "Request timeout. Please try again later."
  | .connectionError =>
    .err "Unable to connect to OSINT API service. Please check your internet connection and try again later."
  | .otherException =>
    .err "An unexpected error occurred while processing your request. Please try again later."

/-- Seconds slept before retrying after the attempt with 0-based index
`attempt`: `retry_delay * (attempt + 1)` for a 429, flat `retry_delay = 1`
otherwise. -/
def sleepFor (attempt : Nat) : HttpOutcome → Nat
  | .status c _ => if c == 429 then 1 * (attempt + 1) else 1
  | _ => 1

/-- The `for attempt in range(max_retries)` loop of `call_osint_api`:
each branch either returns or — when the outcome is retryable and
`attempt < max_retries - 1` — sleeps and continues.  Returns the result,
the number of attempts performed, and the sleeps taken. -/
def apiGo (oracle : Nat → HttpOutcome) (maxRetries : Nat) :
    List Nat → ApiResult × Nat × List Nat
  | [] => (.err "", 0, [])
  | a :: rest =>
    let o := oracle a
    if retryable o && decide (a < maxRetries - 1) then
      let r := apiGo oracle maxRetries rest
      (r.1, r.2.1 + 1, sleepFor a o :: r.2.2)
    else (terminalResult o, 1, [])

/-- The retry loop with the source's `max_retries = 3`. -/
def callApiAttempts (oracle : Nat → HttpOutcome) : ApiResult × Nat × List Nat :=
  apiGo oracle 3 (List.range 3)

/-- The query-type → API-parameter map of `call_osint_api`
(main.py lines 216–226); `none` for every unsupported type. -/
def paramName : String → Option String
  | "phone" => some "number"
  | "vehicle" => some "vehicle"
  | "aadhaar" => some "aadhaar"
  | "upi" => some "upi"
  | _ => none

/-- `OSINTBot.call_osint_api` (main.py lines 196–316).  `oracle n` is the
outcome of the `n`-th HTTP attempt; the middle component lists the query
parameters of each GET actually issued, the last the sleeps taken.  An
unsupported type returns before any request. -/
def call_osint_api (query query_type : String) (key : String)
    (oracle : Nat → HttpOutcome) :
    ApiResult × List (List (String × String)) × List Nat :=
  match paramName query_type with
  | none =>
    (.err ("Query type " ++ squote ++ query_type ++ squote
        ++ " is not supported by the current OSINT API"), [], [])
  | some p =>
    let r := callApiAttempts oracle
    (r.1, List.replicate r.2.1 [("key", key), (p, query)], r.2.2)

example :
    (callApiAttempts fun _ => .status 500 (.text "")).2.1 = 3 := by decide
example :
    (callApiAttempts fun _ => .status 500 (.text "")).2.2 = [1, 1] := by decide
example :
    (callApiAttempts fun n => if n == 0 then .status 429 (.text "") else .status 200 (.json .null)).2.1 = 2 := by decide
example :
    (callApiAttempts fun n => if n == 0 then .status 429 (.text "")
      else if n == 1 then .status 429 (.text "") else .status 429 (.text "")).2.2 = [1, 2] := by decide
example :
    (callApiAttempts fun _ => .status 404 (.text "")).2.1 = 1 := by decide
example :
    (call_osint_api "a@b" "email" "dark" fun _ => .status 200 (.json .null)).2.1 = [] := by decide
example :
    (call_osint_api "9177075666" "phone" "dark" fun _ => .status 200 (.json .null)).2.1
      = [[("key", "dark"), ("number", "9177075666")]] := by decide

/-! ### Store, subscription manager and command handlers -/

/-- Modelled from the spec: the user/subscription/usage Store backed by
`database.py`, which the source imports (`DatabaseManager`) but which is not
part of the reviewed tree (§4.2 of the spec).  A user row is abstracted to
its identity and whether the caller is currently inside a subscription
window; usage-log entries are `(user_id, command, query)`. -/
structure Store where
  users : List (Int × Bool)
  log : List (Int × String × String)
deriving DecidableEq

/-- Modelled from the spec: `add_user` is an insert-or-ignore upsert that
never overwrites an existing row (§4.2). -/
def add_user (st : Store) (uid : Int) : Store :=
  if st.users.any (fun p => p.1 == uid) then st
  else { st with users := (uid, false) :: st.users }

/-- Modelled from the spec: `is_user_subscribed` is true iff the user's row
exists and the current time is inside its subscription window, abstracted
here to the row's subscription flag (§4.2). -/
def is_user_subscribed (st : Store) (uid : Int) : Bool :=
  (st.users.lookup uid).getD false

/-- Modelled from the spec: `log_usage` appends one UsageLogEntry (§4.2). -/
def log_usage (st : Store) (uid : Int) (command query : String) : Store :=
  { st with log := st.log ++ [(uid, command, query)] }

/-- Modelled from the spec: `get_user` returns the row or an
absent-indicator (§4.2). -/
def get_user (st : Store) (uid : Int) : Option Bool :=
  st.users.lookup uid

/-- Modelled from the spec: `grant_subscription` opens a fresh subscription
window for an existing user and fails for an unknown one (§4.2). -/
def grant_subscription (st : Store) (uid : Int) : Store × Bool :=
  match st.users.lookup uid with
  | none => (st, false)
  | some _ =>
    ({ st with users := st.users.map fun p => if p.1 == uid then (p.1, true) else p }, true)

/-- Telegram-side effects of one command invocation, in order. -/
inductive Act where
  | subRequired
  | reply (msg : String)
  | typing
  | sendProcessing (msg : String)
  | deleteProcessing
  | apiRequest (params : List (String × String))
deriving DecidableEq

/-- `SubscriptionManager.is_admin` (subscription_manager.py lines 169–171):
Python `self.admin_id and user_id == self.admin_id`, whose value is falsy
when `admin_id` is `None` or `0`. -/
def is_admin (admin_id : Option Int) (user_id : Int) : Bool :=
  match admin_id with
  | none => false
  | some a => !(a == 0) && user_id == a

/-- `SubscriptionManager.require_subscription` (subscription_manager.py
lines 27–54): upsert, gate, usage-log write, then delegate.  `funcName` is
the wrapped function's `__name__` with the `_command` suffix removed. -/
def require_subscription (funcName : String)
    (wrapped : Store → Int → List String → Store × List Act)
    (st : Store) (uid : Int) (args : List String) : Store × List Act :=
  let st1 := add_user st uid
  if !(is_user_subscribed st1 uid) then (st1, [.subRequired])
  else
    let q := if args.isEmpty then "N/A" else String.intercalate " " args
    wrapped (log_usage st1 uid funcName q) uid args

/-- `OSINTBot._process_osint_query` (main.py lines 974–1036): classify,
type-mismatch check, processing message, typing indicator, upstream call,
delete, final reply. -/
def _process_osint_query (st : Store) (uid : Int) (query query_type : String)
    (key : String) (oracle : Nat → HttpOutcome) : Store × List Act :=
  match validate_input query with
  | .invalid e =>
    (st, [.reply ("❌ **Invalid " ++ query_type ++ " format:**\n" ++ e
        ++ "\n\nUse `/help` for format examples.")])
  | .valid t v =>
    if t != query_type then
      (st, [.reply ("❌ **Query Type Mismatch:**\nYou used `/" ++ query_type
          ++ "` command but the input appears to be a " ++ t
          ++ ".\n\nPlease use the correct command: `/" ++ t ++ " " ++ query ++ "`")])
    else
      let r := call_osint_api v query_type key oracle
      (st, [.sendProcessing ("🔍 **Processing " ++ query_type
              ++ " lookup...**\nPlease wait while I search the databases."),
            .typing]
        ++ r.2.1.map Act.apiRequest
        ++ [.deleteProcessing,
            match r.1 with
            | .ok d => .reply (format_osint_response v d query_type)
            | .err e => .reply ("❌ **Error:** " ++ e
                ++ "\n\nPlease try again later or contact the administrator if the problem persists.")])

/-- Usage text of `/phone` (main.py lines 692–701). -/
def phoneUsageText : String :=
  "📱 **Phone Number Lookup**\n\nPlease provide a phone number to search.\n\n**Usage:** `/phone <number>`\n**Example:** `/phone 9177075666`\n\n**Supported formats:**\n• Indian mobile numbers (10 digits)\n• With or without +91 country code"

/-- Usage text of `/vehicle` (main.py lines 723–732). -/
def vehicleUsageText : String :=
  "🚗 **Vehicle Information Lookup**\n\nPlease provide a vehicle registration number to search.\n\n**Usage:** `/vehicle <registration_number>`\n**Example:** `/vehicle JK05F1806`\n\n**Supported formats:**\n• Indian vehicle registration numbers\n• Format: AA##A#### (State + District + Series + Number)"

/-- Usage text of `/aadhar` (main.py lines 754–763). -/
def aadharUsageText : String :=
  "🆔 **Aadhaar Information Lookup**\n\nPlease provide an Aadhaar number to search.\n\n**Usage:** `/aadhar <aadhaar_number>`\n**Example:** `/aadhar 123456789012`\n\n**Note:**\n• Aadhaar number should be 12 digits\n• Spaces and hyphens will be removed automatically"

/-- Usage text of `/upi` (main.py lines 785–794). -/
def upiUsageText : String :=
  "💳 **UPI ID Lookup**\n\nPlease provide a UPI ID to search.\n\n**Usage:** `/upi <upi_id>`\n**Example:** `/upi user@paytm`\n\n**Supported formats:**\n• username@bank (e.g., user@paytm)\n• phone@upi (e.g., 9876543210@ybl)"

/-- Usage text of `/osint` (main.py lines 607–612). -/
def osintUsageText : String :=
  "❌ Please provide a query to search for.\n\n**Usage:** `/osint <email|ip|domain|username>`\n**Example:** `/osint example@email.com`"

/-- `OSINTBot.phone_command` (main.py lines 676–705): upsert, subscription
gate, usage text when no argument, else the shared per-type flow. -/
def phone_command (st : Store) (uid : Int) (args : List String) (key : String)
    (oracle : Nat → HttpOutcome) : Store × List Act :=
  let st1 := add_user st uid
  if !(is_user_subscribed st1 uid) then (st1, [.subRequired])
  else if args.isEmpty then (st1, [.reply phoneUsageText])
  else _process_osint_query st1 uid (String.intercalate " " args) "phone" key oracle

/-- `OSINTBot.vehicle_command` (main.py lines 707–736). -/
def vehicle_command (st : Store) (uid : Int) (args : List String) (key : String)
    (oracle : Nat → HttpOutcome) : Store × List Act :=
  let st1 := add_user st uid
  if !(is_user_subscribed st1 uid) then (st1, [.subRequired])
  else if args.isEmpty then (st1, [.reply vehicleUsageText])
  else _process_osint_query st1 uid (String.intercalate " " args) "vehicle" key oracle

/-- `OSINTBot.aadhar_command` (main.py lines 738–767). -/
def aadhar_command (st : Store) (uid : Int) (args : List String) (key : String)
    (oracle : Nat → HttpOutcome) : Store × List Act :=
  let st1 := add_user st uid
  if !(is_user_subscribed st1 uid) then (st1, [.subRequired])
  else if args.isEmpty then (st1, [.reply aadharUsageText])
  else _process_osint_query st1 uid (String.intercalate " " args) "aadhaar" key oracle

/-- `OSINTBot.upi_command` (main.py lines 769–798). -/
def upi_command (st : Store) (uid : Int) (args : List String) (key : String)
    (oracle : Nat → HttpOutcome) : Store × List Act :=
  let st1 := add_user st uid
  if !(is_user_subscribed st1 uid) then (st1, [.subRequired])
  else if args.isEmpty then (st1, [.reply upiUsageText])
  else _process_osint_query st1 uid (String.intercalate " " args) "upi" key oracle

/-- `OSINTBot.osint_command` (main.py lines 591–667): upsert, gate, usage
text, typing indicator, classify, then search/format with its own texts. -/
def osint_command (st : Store) (uid : Int) (args : List String) (key : String)
    (oracle : Nat → HttpOutcome) : Store × List Act :=
  let st1 := add_user st uid
  if !(is_user_subscribed st1 uid) then (st1, [.subRequired])
  else if args.isEmpty then (st1, [.reply osintUsageText])
  else
    let query := String.mk (pyStrip (String.intercalate " " args).data)
    match validate_input query with
    | .invalid e =>
      (st1, [.typing,
        .reply ("❌ **Error:** " ++ e
          ++ "\n\n**Supported formats:**\n• Phone: 9876543210 (10 digits)\n• Vehicle: JK05F1806 (Indian format)\n• Aadhaar: 123456789012 (12 digits)\n• UPI: username@paytm\n• Email: user@domain.com (limited)\n• IP: 192.168.1.1 (limited)\n• Domain: example.com (limited)")])
    | .valid t v =>
      let r := call_osint_api v t key oracle
      (st1, [.typing,
          .sendProcessing ("🔍 Searching OSINT databases for `" ++ v
            ++ "`...\n📊 Query type: **" ++ pyUpper t ++ "**")]
        ++ r.2.1.map Act.apiRequest
        ++ [.deleteProcessing,
            match r.1 with
            | .ok d => .reply (format_osint_response v d t)
            | .err e => .reply ("❌ **Error:** " ++ e
                ++ "\n\nPlease try again later or contact the administrator if the problem persists.")])

/-- Python `int()` on a string: surrounding whitespace, an optional sign,
then decimal digits (digit-group underscores are omitted; no claim depends
on them). -/
def pyInt (s : String) : Option Int :=
  let cs := pyStrip s.data
  let p : Int × List Char :=
    match cs with
    | '+' :: rest => (1, rest)
    | '-' :: rest => (-1, rest)
    | _ => (1, cs)
  if !p.2.isEmpty && p.2.all digitB then
    some (p.1 * p.2.foldl (fun a c => a * 10 + ((c.toNat : Int) - 48)) 0)
  else none

/-- The access-denied reply of every admin-only command
(main.py lines 814–817, 878–881, 945–948). -/
def accessDeniedText : String :=
  "❌ **Access Denied**\n\nThis command is for administrators only."

/-- Usage text of `/grant` (main.py lines 822–828). -/
def grantUsageText : String :=
  "**Usage:** `/grant <user_id> [payment_reference]`\n\n**Example:**\n`/grant 123456789` - Grant subscription\n`/grant 123456789 PAY123` - Grant with payment reference"

/-- `SubscriptionManager.grant_user_subscription` (subscription_manager.py
lines 173–197): fails without mutation when the target has no Store row. -/
def grant_user_subscription (st : Store) (uid : Int) : Store × Bool :=
  match get_user st uid with
  | none => (st, false)
  | some _ => grant_subscription st uid

/-- Modelled from the spec: the fields of a Store row and its derived
statistics — `get_user` and `get_user_stats` of the absent `database.py` —
that the `/userinfo` success reply interpolates (§4.2).  The store's
column types are not visible in src; optional text columns are `Option
String` and numeric columns integers. -/
structure UserRow where
  user_id : Int
  username : Option String
  first_name : String
  last_name : Option String
  created_at : String
  subscription_status : String
  subscription_start : Option String
  subscription_end : Option String
  days_remaining : Int
  payment_amount : Option Int
  queries_used : Int
  payment_reference : Option String

/-- Python `value or fallback` on an optional text column: the fallback is
used when the value is absent or empty (both falsy). -/
def pyOrStr (x : Option String) (d : String) : String :=
  match x with
  | none => d
  | some s => if s.isEmpty then d else s

/-- Python `value[:10] if value else 'N/A'` on an optional timestamp
column (main.py lines 915–916). -/
def pyDate10 (x : Option String) : String :=
  match x with
  | none => "N/A"
  | some s => if s.isEmpty then "N/A" else String.mk (s.data.take 10)

/-- The `/userinfo` success reply (main.py lines 904–923): the source's
triple-quoted template — leading newline and trailing newline plus
indentation included — with the row fields interpolated; the `[:10]`
truncations, `or` fallbacks and `str.title()` follow the source. -/
def userInfoText (r : UserRow) : String :=
  "\n📋 **User Information**\n\n**👤 User Details:**\n• **ID:** "
    ++ toString r.user_id
    ++ "\n• **Username:** @" ++ pyOrStr r.username "N/A"
    ++ "\n• **Name:** " ++ r.first_name ++ " " ++ pyOrStr r.last_name ""
    ++ "\n• **Joined:** " ++ String.mk (r.created_at.data.take 10)
    ++ "\n\n**💳 Subscription:**\n• **Status:** " ++ pyTitle r.subscription_status
    ++ "\n• **Start:** " ++ pyDate10 r.subscription_start
    ++ "\n• **End:** " ++ pyDate10 r.subscription_end
    ++ "\n• **Days Left:** " ++ toString r.days_remaining
    ++ "\n• **Amount Paid:** ₹" ++ toString (r.payment_amount.getD 0)
    ++ "\n\n**📊 Usage:**\n• **Queries Used:** " ++ toString r.queries_used
    ++ "\n• **Payment Ref:** " ++ pyOrStr r.payment_reference "N/A"
    ++ "\n            "

/-- `OSINTBot.grant_command` (main.py lines 808–870).  `callerName` stands
for the granting admin's first name and `autoRef` for the
`ADMIN_GRANT_<timestamp>` reference generated when none is supplied. -/
def grant_command (admin_id : Option Int) (st : Store) (uid : Int)
    (args : List String) (callerName autoRef : String) : Store × List Act :=
  if !(is_admin admin_id uid) then (st, [.reply accessDeniedText])
  else if args.isEmpty then (st, [.reply grantUsageText])
  else
    match pyInt (args.headD "") with
    | none =>
      (st, [.reply "❌ **Invalid user ID**\n\nPlease provide a valid numeric user ID."])
    | some target =>
      let payRef := args.getD 1 ("ADMIN_GRANT_" ++ autoRef)
      let r := grant_user_subscription st target
      if r.2 then
        (r.1, [.reply ("✅ **Subscription Granted**\n\n**User ID:** " ++ toString target
            ++ "\n**Duration:** 21 days\n**Amount:** ₹399\n**Reference:** " ++ payRef
            ++ "\n**Granted by:** " ++ callerName ++ " (" ++ toString uid ++ ")")])
      else
        (r.1, [.reply ("❌ **Failed to grant subscription**\n\nUser " ++ toString target
            ++ " may not exist in the database.\nAsk the user to try any command first to register.")])

/-- `OSINTBot.userinfo_command` (main.py lines 872–937).  `rows` is the
spec-modelled view of the absent store's full row and statistics for each
user id, consulted only on the success path. -/
def userinfo_command (admin_id : Option Int) (st : Store) (uid : Int)
    (args : List String) (rows : Int → UserRow) : Store × List Act :=
  if !(is_admin admin_id uid) then (st, [.reply accessDeniedText])
  else if args.isEmpty then
    (st, [.reply "**Usage:** `/userinfo <user_id>`\n\n**Example:** `/userinfo 123456789`"])
  else
    match pyInt (args.headD "") with
    | none =>
      (st, [.reply "❌ **Invalid user ID**\n\nPlease provide a valid numeric user ID."])
    | some target =>
      match get_user st target with
      | none =>
        (st, [.reply ("❌ **User not found**\n\nUser " ++ toString target
            ++ " is not in the database.")])
      | some _ => (st, [.reply (userInfoText (rows target))])

/-- The `SubscriptionManager.send_admin_help` message
(subscription_manager.py lines 199–219): the source's triple-quoted
template — leading newline and trailing newline plus indentation included —
with the configured `subscription_days = 21`, `subscription_price = 399.0`
(a float, so it renders as `399.0`) and `admin_username = ded_xdk`
interpolated. -/
def adminHelpText : String :=
  "\n🔧 **Admin Commands**\n\n**User Management:**\n`/grant <user_id> [payment_ref]` - Grant 21 days subscription\n`/revoke <user_id>` - Revoke user subscription\n`/userinfo <user_id>` - Get user details\n`/stats` - Get bot statistics\n\n**Examples:**\n`/grant 123456789` - Grant subscription to user\n`/grant 123456789 PAY123` - Grant with payment reference\n`/userinfo 123456789` - Get user subscription info\n\n**Price:** ₹399.0 for 21 days\n**Admin:** @ded_xdk\n        "

/-- `OSINTBot.admin_command` (main.py lines 939–951). -/
def admin_command (admin_id : Option Int) (st : Store) (uid : Int) :
    Store × List Act :=
  if !(is_admin admin_id uid) then (st, [.reply accessDeniedText])
  else (st, [.reply adminHelpText])

example :
    phone_command ⟨[], []⟩ 7 ["9177075666"] "dark" (fun _ => .status 200 (.json .null))
      = (⟨[(7, false)], []⟩, [.subRequired]) := by decide
example :
    (phone_command ⟨[(7, true)], []⟩ 7 ["9177075666"] "dark"
        (fun _ => .status 200 (.json .null))).1.log = [] := by decide
example :
    vehicle_command ⟨[(7, true)], []⟩ 7 ["9177075666"] "dark"
        (fun _ => .status 200 (.json .null))
      = (⟨[(7, true)], []⟩,
         [.reply ("❌ **Query Type Mismatch:**\nYou used `/vehicle` command but the input appears to be a phone.\n\nPlease use the correct command: `/phone 9177075666`")]) := by
  decide
example : is_admin (some 0) 0 = false := by decide
example : is_admin (some 5682019164) 5682019164 = true := by decide
example :
    grant_command (some 5) ⟨[], []⟩ 4 ["123"] "A" "T" = (⟨[], []⟩, [.reply accessDeniedText]) := by decide

/-! ### Helper lemmas -/

lemma mk_data : ∀ s : String, String.mk s.data = s
  | ⟨_⟩ => rfl

lemma ws_chars {c : Char} (h : isPyWS c = true) :
    c = ' ' ∨ c = '\t' ∨ c = '\n' ∨ c = '\r' ∨ c = '\x0b' ∨ c = '\x0c' := by
  simpa [isPyWS, Bool.or_eq_true, beq_iff_eq, or_assoc] using h

lemma ws_toNat {c : Char} (h : isPyWS c = true) : c.toNat ≤ 32 := by
  rcases ws_chars h with rfl | rfl | rfl | rfl | rfl | rfl <;> decide

lemma not_ws_of_printable {c : Char} (h : 33 ≤ c.toNat) : isPyWS c = false := by
  cases hw : isPyWS c with
  | false => rfl
  | true => exact absurd (ws_toNat hw) (by omega)

lemma digit_toNat {c : Char} (h : digitB c = true) :
    48 ≤ c.toNat ∧ c.toNat ≤ 57 := by
  simpa [digitB] using h

lemma digit_not_ws {c : Char} (h : digitB c = true) : isPyWS c = false :=
  not_ws_of_printable (by have := digit_toNat h; omega)

lemma dropWhile_eq_self {p : Char → Bool} {cs : List Char}
    (h : ∀ c ∈ cs, p c = false) : cs.dropWhile p = cs := by
  cases cs with
  | nil => rfl
  | cons c t => simp [List.dropWhile_cons, h c (by simp)]

lemma pyStrip_eq_self {cs : List Char} (h : ∀ c ∈ cs, isPyWS c = false) :
    pyStrip cs = cs := by
  unfold pyStrip
  rw [dropWhile_eq_self h,
    dropWhile_eq_self (fun c hc => h c (List.mem_reverse.mp hc)),
    List.reverse_reverse]

lemma beq_char_false {c x : Char} (h : digitB c = true) (hx : digitB x = false) :
    (c == x) = false := by
  cases hb : c == x with
  | false => rfl
  | true =>
    have he := eq_of_beq hb
    subst he
    rw [hx] at h
    exact absurd h (by decide)

lemma digits_all {cs : List Char} (hd : ∀ c ∈ cs, digitB c = true) :
    cs.all digitB = true :=
  List.all_eq_true.mpr hd

lemma digits_no_ws {cs : List Char} (hd : ∀ c ∈ cs, digitB c = true) :
    pyStrip cs = cs :=
  pyStrip_eq_self fun c hc => digit_not_ws (hd c hc)

lemma digits_not_plus91 {cs : List Char}
    (hd : ∀ c ∈ cs, digitB c = true) : plus91 cs = false := by
  have h3 : (cs.take 3 == ['+', '9', '1']) = false := by
    cases hq : cs.take 3 == ['+', '9', '1'] with
    | false => rfl
    | true =>
      have heq := eq_of_beq hq
      have hm : '+' ∈ cs := List.take_subset 3 cs (by rw [heq]; simp)
      exact absurd (hd _ hm) (by decide)
  simp [plus91, h3]

lemma takeCount_decomp {p : Char → Bool} :
    ∀ {n : Nat} {cs r : List Char}, takeCount p n cs = some r →
      ∃ t, cs = t ++ r ∧ ∀ c ∈ t, p c = true := by
  intro n
  induction n with
  | zero =>
    intro cs r h
    simp [takeCount] at h
    exact ⟨[], by simp [h], by simp⟩
  | succ m ih =>
    intro cs r h
    cases cs with
    | nil => simp [takeCount] at h
    | cons c t =>
      by_cases hp : p c = true
      · simp [takeCount, hp] at h
        obtain ⟨t2, ht2, hall⟩ := ih h
        exact ⟨c :: t2, by simp [ht2], by
          intro x hx
          rcases List.mem_cons.mp hx with rfl | hx2
          · exact hp
          · exact hall x hx2⟩
      · simp [takeCount, Bool.eq_false_iff.mpr hp] at h

lemma vehicleMatch_chars {cs : List Char} (h : vehicleMatch cs = true) :
    ∀ c ∈ cs, upperB c = true ∨ digitB c = true := by
  unfold vehicleMatch at h
  obtain ⟨d, _, h⟩ := List.any_eq_true.mp h
  obtain ⟨l, _, h⟩ := List.any_eq_true.mp h
  split at h
  · exact absurd h (by simp)
  · rename_i r1 h1
    split at h
    · exact absurd h (by simp)
    · rename_i r2 h2
      split at h
      · exact absurd h (by simp)
      · rename_i r3 h3
        split at h
        · exact absurd h (by simp)
        · rename_i r4 h4
          obtain ⟨t1, e1, a1⟩ := takeCount_decomp h1
          obtain ⟨t2, e2, a2⟩ := takeCount_decomp h2
          obtain ⟨t3, e3, a3⟩ := takeCount_decomp h3
          obtain ⟨t4, e4, a4⟩ := takeCount_decomp h4
          have hr4 : r4 = [] := by simpa using h
          intro c hc
          rw [e1, e2, e3, e4, hr4] at hc
          simp only [List.mem_append, List.append_nil] at hc
          rcases hc with hc | hc | hc | hc
          · exact Or.inl (a1 c hc)
          · exact Or.inr (a2 c hc)
          · exact Or.inl (a3 c hc)
          · exact Or.inr (a4 c hc)

lemma vehicleMatch_head_not_upper {c : Char} {t : List Char}
    (h : upperB c = false) : vehicleMatch (c :: t) = false := by
  simp [vehicleMatch, takeCount, h]

lemma pyUpperChar_digit {c : Char} (h : digitB c = true) : pyUpperChar c = c := by
  have hl : lowerB c = false := by
    have := digit_toNat h
    simp [lowerB]
    omega
  simp [pyUpperChar, hl]

lemma upperB_digit {c : Char} (h : digitB c = true) : upperB c = false := by
  have := digit_toNat h
  simp [upperB]
  omega

lemma splitSep_no_sep {sep : Char} {cs : List Char}
    (h : ∀ c ∈ cs, (c == sep) = false) : splitSep sep cs = [cs] := by
  induction cs with
  | nil => rfl
  | cons c t ih =>
    have hc := h c (by simp)
    have ht := ih fun x hx => h x (by simp [hx])
    simp [splitSep, hc, ht]

lemma no_at_of_digits {cs : List Char} (hd : ∀ c ∈ cs, digitB c = true) :
    cs.any (· == '@') = false :=
  List.any_eq_false.mpr fun c hc => by
    simp [beq_char_false (hd c hc) (show digitB '@' = false by decide)]

lemma no_dot_of_digits {cs : List Char} (hd : ∀ c ∈ cs, digitB c = true) :
    ∀ c ∈ cs, (c == '.') = false :=
  fun c hc => beq_char_false (hd c hc) (by decide)

lemma ip_false_of_digits {cs : List Char} (hd : ∀ c ∈ cs, digitB c = true) :
    ipLiteral cs = false := by
  have hsplit := splitSep_no_sep (no_dot_of_digits hd)
  have hcolon : cs.any (· == ':') = false :=
    List.any_eq_false.mpr fun c hc => by
      simp [beq_char_false (hd c hc) (show digitB ':' = false by decide)]
  simp [ipLiteral, hsplit, hcolon]

lemma domain_false_of_digits {cs : List Char} (hd : ∀ c ∈ cs, digitB c = true) :
    validatorsDomain cs = false := by
  have hsplit := splitSep_no_sep (no_dot_of_digits hd)
  simp [validatorsDomain, validatorsEmail.validatorsDomainB, hsplit]

lemma url_false_of_head_digit {c : Char} {t : List Char}
    (h : digitB c = true) : validatorsUrl (c :: t) = false := by
  have ha : alphaB c = false := by
    have := digit_toNat h
    simp [alphaB, upperB, lowerB]
    omega
  simp [validatorsUrl, List.takeWhile_cons, ha]

lemma userChar_digit {c : Char} (h : digitB c = true) : userChar c = true := by
  simp [userChar, alnumB, h]

/-- Core classification of non-empty all-digit inputs: phone at 10,
aadhaar at 12, username at length ≥ 3, invalid below. -/
lemma validate_digits : ∀ (s : String), s.data ≠ [] →
    (∀ c ∈ s.data, digitB c = true) →
    validate_input s =
      (if s.data.length = 10 then .valid "phone" s
       else if s.data.length = 12 then .valid "aadhaar" s
       else if 3 ≤ s.data.length then .valid "username" s
       else .invalid invalidAllText)
  | ⟨[]⟩, hne, _ => absurd rfl hne
  | ⟨c :: t⟩, _, hd => by
    have hc : digitB c = true := hd c (by simp)
    have hstrip : pyStrip (c :: t) = c :: t := digits_no_ws hd
    have hall : (c :: t).all digitB = true := digits_all hd
    have hplus : plus91 (c :: t) = false := digits_not_plus91 hd
    have hat : (c :: t).any (· == '@') = false := no_at_of_digits hd
    have hip : ipLiteral (c :: t) = false := ip_false_of_digits hd
    have hdom : validatorsDomain (c :: t) = false := domain_false_of_digits hd
    have hurl : validatorsUrl (c :: t) = false := url_false_of_head_digit hc
    have hveh : vehicleMatch (pyUpperChar c :: t.map pyUpperChar) = false :=
      vehicleMatch_head_not_upper
        (by rw [pyUpperChar_digit hc]; exact upperB_digit hc)
    have huserc : userChar c = true := userChar_digit hc
    have husert : ∀ x ∈ t, userChar x = true :=
      fun x hx => userChar_digit (hd x (by simp [hx]))
    by_cases h10 : (c :: t).length = 10
    · simp [validate_input, hstrip, hall, h10]
    · have h10b : ((c :: t).length == 10) = false := by simpa using h10
      by_cases h12 : (c :: t).length = 12
      · simp [validate_input, hstrip, hall, h10b, h10, hplus, h12]
      · have h12b : ((c :: t).length == 12) = false := by simpa using h12
        by_cases h3 : 3 ≤ (c :: t).length
        · have h3t : 2 ≤ t.length := by simp at h3; omega
          simp [validate_input, hstrip, hall, h10b, hplus, h12b, hveh, hat,
            hip, hdom, hurl, huserc, husert, h10, h12, h3t]
          split_ifs <;> simp_all
        · have h3t : ¬2 ≤ t.length := by simp at h3; omega
          simp [validate_input, hstrip, hall, h10b, hplus, h12b, hveh, hat,
            hip, hdom, hurl, h10, h12, h3t]

lemma validate_plus91 : ∀ (s : String), s.data.length = 10 →
    (∀ c ∈ s.data, digitB c = true) →
    validate_input ("+91" ++ s) = .valid "phone" s
  | ⟨l⟩, hlen, hd => by
    have hdata : ("+91" ++ (⟨l⟩ : String)).data = '+' :: '9' :: '1' :: l := rfl
    have hnws : ∀ c ∈ '+' :: '9' :: '1' :: l, isPyWS c = false := by
      intro c hc
      rcases List.mem_cons.mp hc with rfl | hc
      · decide
      rcases List.mem_cons.mp hc with rfl | hc
      · decide
      rcases List.mem_cons.mp hc with rfl | hc
      · decide
      exact digit_not_ws (hd c hc)
    have hstrip : pyStrip ('+' :: '9' :: '1' :: l) = '+' :: '9' :: '1' :: l :=
      pyStrip_eq_self hnws
    have hlen2 : l.length = 10 := hlen
    have hlen13 : ('+' :: '9' :: '1' :: l).length = 13 := by simp [hlen2]
    have hplus : plus91 ('+' :: '9' :: '1' :: l) = true := by
      simp [plus91, hlen13, List.all_eq_true]
      exact fun c hc => hd c hc
    simp [validate_input, hdata, hstrip, hlen13, hplus]

lemma plus91_chars {cs : List Char} (h : plus91 cs = true) :
    ∀ c ∈ cs, c = '+' ∨ c = '9' ∨ c = '1' ∨ digitB c = true := by
  unfold plus91 at h
  simp only [Bool.and_eq_true, beq_iff_eq, List.all_eq_true] at h
  obtain ⟨⟨_, htake⟩, hdrop⟩ := h
  intro c hc
  rw [← List.take_append_drop 3 cs] at hc
  rcases List.mem_append.mp hc with h4 | h4
  · rw [htake] at h4
    have : c = '+' ∨ c = '9' ∨ c = '1' := by simpa using h4
    tauto
  · exact Or.inr (Or.inr (Or.inr (hdrop c h4)))

@[simp] lemma resultType_valid (t v : String) :
    resultType (.valid t v) = some t := rfl

@[simp] lemma resultType_invalid (e : String) :
    resultType (.invalid e) = none := rfl

/-- Shared core for separator characters: a character in the stripped input
that is not a digit, not `+`, and maps under upper-casing to neither an
upper-case letter nor a digit rules out the phone, aadhaar and vehicle
classifications. -/
lemma validate_sep_core (s : String) (c0 : Char) (hmem : c0 ∈ pyStrip s.data)
    (hd : digitB c0 = false) (hup : upperB (pyUpperChar c0) = false)
    (hud : digitB (pyUpperChar c0) = false) (hp1 : c0 ≠ '+') :
    resultType (validate_input s) ≠ some "phone" ∧
    resultType (validate_input s) ≠ some "aadhaar" ∧
    resultType (validate_input s) ≠ some "vehicle" := by
  have hall : (pyStrip s.data).all digitB = false := by
    cases h : (pyStrip s.data).all digitB with
    | false => rfl
    | true => exact absurd (List.all_eq_true.mp h c0 hmem) (by simp [hd])
  have hplus : plus91 (pyStrip s.data) = false := by
    cases h : plus91 (pyStrip s.data) with
    | false => rfl
    | true =>
      rcases plus91_chars h c0 hmem with rfl | rfl | rfl | hdig
      · exact absurd rfl hp1
      · exact absurd hd (by decide)
      · exact absurd hd (by decide)
      · exact absurd hdig (by simp [hd])
  have hveh : vehicleMatch ((pyStrip s.data).map pyUpperChar) = false := by
    cases h : vehicleMatch ((pyStrip s.data).map pyUpperChar) with
    | false => rfl
    | true =>
      rcases vehicleMatch_chars h (pyUpperChar c0) (List.mem_map_of_mem _ hmem) with hu | hdg
      · exact absurd hu (by simp [hup])
      · exact absurd hdg (by simp [hud])
  refine ⟨?_, ?_, ?_⟩ <;> (simp [validate_input, hall, hplus, hveh]; split_ifs <;> simp)

/-- C3: a string of exactly 10 decimal digits classifies as `phone` with the
value unchanged, and `+91` followed by those 10 digits classifies as `phone`
with the `+91` prefix removed. -/
theorem c3_classifier_phone (s : String) (hlen : s.data.length = 10)
    (hd : ∀ c ∈ s.data, digitB c = true) :
    validate_input s = .valid "phone" s ∧
    validate_input ("+91" ++ s) = .valid "phone" s := by
  constructor
  · rw [validate_digits s (by intro h; rw [h] at hlen; simp at hlen) hd]
    simp [hlen]
  · exact validate_plus91 s hlen hd

theorem c3_witness :
    validate_input "9177075666" = .valid "phone" "9177075666" ∧
    validate_input "+919177075666" = .valid "phone" "9177075666" :=
  c3_classifier_phone "9177075666" (by decide) (by decide)

/-- C7 (amended): a non-empty digit-only string never reaches the domain or
URL branches; it classifies as phone at exactly 10 digits, aadhaar at
exactly 12, username at any other length of at least 3, and is rejected as
invalid below 3 — digit-only strings can therefore be classified as
username. -/
theorem c7_digit_classification_amended (s : String) (hne : s.data ≠ [])
    (hd : ∀ c ∈ s.data, digitB c = true) :
    (∀ v, validate_input s ≠ .valid "domain" v) ∧
    (∀ v, validate_input s ≠ .valid "url" v) ∧
    (s.data.length = 10 → validate_input s = .valid "phone" s) ∧
    (s.data.length = 12 → validate_input s = .valid "aadhaar" s) ∧
    (s.data.length ≠ 10 → s.data.length ≠ 12 → 3 ≤ s.data.length →
      validate_input s = .valid "username" s) ∧
    (s.data.length < 3 → validate_input s = .invalid invalidAllText) := by
  rw [validate_digits s hne hd]
  refine ⟨?_, ?_, ?_, ?_, ?_, ?_⟩
  · intro v; split_ifs <;> simp
  · intro v; split_ifs <;> simp
  · intro h10; rw [if_pos h10]
  · intro h12; rw [if_neg (by omega), if_pos h12]
  · intro h10 h12 h3; rw [if_neg h10, if_neg h12, if_pos h3]
  · intro hlt; rw [if_neg (by omega), if_neg (by omega), if_neg (by omega)]

/-- C7 counterexample: `"123"` is a digit-only string, and the code
classifies it as `username`, contradicting the claim that digit-only
strings are never classified as username. -/
theorem c7_counterexample :
    (∀ c ∈ ("123" : String).data, digitB c = true) ∧
    validate_input "123" = .valid "username" "123" := ⟨by decide, by decide⟩

theorem c7_witness :
    validate_input "12345" = .valid "username" "12345" :=
  (c7_digit_classification_amended "12345" (by decide) (by decide)).2.2.2.2.1
    (by decide) (by decide) (by decide)

/-- C10 (amended): an input whose stripped form still contains a space or a
hyphen is never classified as phone, aadhaar or vehicle; in particular
`"1234 5678 9012"` is rejected as invalid and `"1234-5678-9012"` is
classified as username rather than aadhaar (the classifier strips no
separator characters from inside the value; surrounding whitespace is
stripped, so an input whose only space is leading or trailing can still
classify as phone). -/
theorem c10_separator_classification_amended :
    (∀ s : String, ' ' ∈ pyStrip s.data ∨ '-' ∈ pyStrip s.data →
      resultType (validate_input s) ≠ some "phone" ∧
      resultType (validate_input s) ≠ some "aadhaar" ∧
      resultType (validate_input s) ≠ some "vehicle") ∧
    validate_input "1234 5678 9012" = .invalid invalidAllText ∧
    validate_input "1234-5678-9012" = .valid "username" "1234-5678-9012" := by
  refine ⟨?_, by decide, by decide⟩
  intro s hsep
  rcases hsep with h | h
  · exact validate_sep_core s ' ' h (by decide) (by decide) (by decide) (by decide)
  · exact validate_sep_core s '-' h (by decide) (by decide) (by decide) (by decide)

/-- C10 counterexample: `" 1234567890"` contains a space, yet the code
strips it and classifies the input as `phone`, contradicting the claim as
stated for every input string containing a space. -/
theorem c10_counterexample :
    ' ' ∈ (" 1234567890" : String).data ∧
    validate_input " 1234567890" = .valid "phone" "1234567890" := ⟨by decide, by decide⟩

theorem c10_witness :
    resultType (validate_input "a-b") ≠ some "phone" ∧
    resultType (validate_input "a-b") ≠ some "aadhaar" ∧
    resultType (validate_input "a-b") ≠ some "vehicle" :=
  c10_separator_classification_amended.1 "a-b" (by decide)

/-! ### Store lemmas and the subscription / admin gates -/

lemma lookup_none_of_no_key {l : List (Int × Bool)} {u : Int}
    (h : ∀ p ∈ l, (p.1 == u) = false) : l.lookup u = none := by
  induction l with
  | nil => rfl
  | cons p t ih =>
    obtain ⟨k, v⟩ := p
    have hp : (k == u) = false := h (k, v) (by simp)
    have hu : (u == k) = false := by
      cases hq : u == k with
      | false => rfl
      | true => rw [eq_of_beq hq] at hp; simp at hp
    simp [List.lookup, hu, ih fun q hq2 => h q (by simp [hq2])]

lemma lookup_some_any {l : List (Int × Bool)} {u : Int} {b : Bool}
    (h : l.lookup u = some b) : l.any (fun p => p.1 == u) = true := by
  induction l with
  | nil => simp [List.lookup] at h
  | cons p t ih =>
    obtain ⟨k, v⟩ := p
    cases hk : u == k with
    | true =>
      have : (k == u) = true := beq_iff_eq.mpr (eq_of_beq hk).symm
      simp [this]
    | false =>
      simp only [List.lookup, hk] at h
      simp [ih h]

lemma is_sub_add_user (st : Store) (u : Int) :
    is_user_subscribed (add_user st u) u = is_user_subscribed st u := by
  unfold add_user
  cases h : st.users.any (fun p => p.1 == u) with
  | true => simp [h]
  | false =>
    have hnone : st.users.lookup u = none :=
      lookup_none_of_no_key fun p hp => by
        simpa using List.any_eq_false.mp h p hp
    simp [h, is_user_subscribed, List.lookup, hnone]

lemma any_add_user (st : Store) (u : Int) :
    (add_user st u).users.any (fun p => p.1 == u) = true := by
  unfold add_user
  cases h : st.users.any (fun p => p.1 == u) with
  | true => simp [h]
  | false => simp [h]

lemma add_user_log (st : Store) (u : Int) : (add_user st u).log = st.log := by
  unfold add_user
  split <;> rfl

lemma add_user_of_subscribed {st : Store} {u : Int}
    (h : is_user_subscribed st u = true) : add_user st u = st := by
  unfold is_user_subscribed at h
  cases hl : st.users.lookup u with
  | none => rw [hl] at h; simp at h
  | some b => exact if_pos (lookup_some_any hl)

lemma process_fst (st : Store) (uid : Int) (q qt key : String)
    (oracle : Nat → HttpOutcome) :
    (_process_osint_query st uid q qt key oracle).1 = st := by
  unfold _process_osint_query
  split
  · rfl
  · split <;> rfl

lemma phone_command_fst (st : Store) (uid : Int) (args : List String)
    (key : String) (oracle : Nat → HttpOutcome) :
    (phone_command st uid args key oracle).1 = add_user st uid := by
  unfold phone_command
  cases h1 : is_user_subscribed (add_user st uid) uid <;>
    cases h2 : args.isEmpty <;>
      simp [h1, h2, process_fst]

lemma vehicle_command_fst (st : Store) (uid : Int) (args : List String)
    (key : String) (oracle : Nat → HttpOutcome) :
    (vehicle_command st uid args key oracle).1 = add_user st uid := by
  unfold vehicle_command
  cases h1 : is_user_subscribed (add_user st uid) uid <;>
    cases h2 : args.isEmpty <;>
      simp [h1, h2, process_fst]

lemma aadhar_command_fst (st : Store) (uid : Int) (args : List String)
    (key : String) (oracle : Nat → HttpOutcome) :
    (aadhar_command st uid args key oracle).1 = add_user st uid := by
  unfold aadhar_command
  cases h1 : is_user_subscribed (add_user st uid) uid <;>
    cases h2 : args.isEmpty <;>
      simp [h1, h2, process_fst]

lemma upi_command_fst (st : Store) (uid : Int) (args : List String)
    (key : String) (oracle : Nat → HttpOutcome) :
    (upi_command st uid args key oracle).1 = add_user st uid := by
  unfold upi_command
  cases h1 : is_user_subscribed (add_user st uid) uid <;>
    cases h2 : args.isEmpty <;>
      simp [h1, h2, process_fst]

lemma osint_command_fst (st : Store) (uid : Int) (args : List String)
    (key : String) (oracle : Nat → HttpOutcome) :
    (osint_command st uid args key oracle).1 = add_user st uid := by
  unfold osint_command
  cases h1 : is_user_subscribed (add_user st uid) uid <;>
    cases h2 : args.isEmpty <;>
      simp [h1, h2] <;>
        try (split <;> rfl)

/-- C1: a caller without an active subscription who issues any gated
command (`/osint`, `/phone`, `/vehicle`, `/aadhar`, `/upi`) is first
upserted into the Store, then receives only the subscription-required
message: the handler returns without classifying the input, without any
upstream API request, and without the command's normal output. -/
theorem c1_subscription_gate (st : Store) (uid : Int) (args : List String)
    (key : String) (oracle : Nat → HttpOutcome)
    (h : is_user_subscribed st uid = false) :
    osint_command st uid args key oracle = (add_user st uid, [.subRequired]) ∧
    phone_command st uid args key oracle = (add_user st uid, [.subRequired]) ∧
    vehicle_command st uid args key oracle = (add_user st uid, [.subRequired]) ∧
    aadhar_command st uid args key oracle = (add_user st uid, [.subRequired]) ∧
    upi_command st uid args key oracle = (add_user st uid, [.subRequired]) ∧
    (add_user st uid).users.any (fun p => p.1 == uid) = true := by
  have h2 : is_user_subscribed (add_user st uid) uid = false := by
    rw [is_sub_add_user]; exact h
  refine ⟨?_, ?_, ?_, ?_, ?_, any_add_user st uid⟩ <;>
    simp [osint_command, phone_command, vehicle_command, aadhar_command,
      upi_command, h2]

theorem c1_witness :
    phone_command ⟨[], []⟩ 1 ["9177075666"] "dark" (fun _ => .connectTimeout)
      = (add_user ⟨[], []⟩ 1, [.subRequired]) :=
  (c1_subscription_gate ⟨[], []⟩ 1 ["9177075666"] "dark"
    (fun _ => .connectTimeout) (by decide)).2.1

/-- C6: when the classifier's detected type differs from the invoked
command's expected type, the shared per-type flow replies only with the
type-mismatch message suggesting the command matching the detected type and
issues no upstream API request. -/
theorem c6_type_mismatch (st : Store) (uid : Int) (q t v query_type key : String)
    (oracle : Nat → HttpOutcome)
    (hval : validate_input q = .valid t v) (hne : t ≠ query_type) :
    _process_osint_query st uid q query_type key oracle
      = (st, [.reply ("❌ **Query Type Mismatch:**\nYou used `/" ++ query_type
          ++ "` command but the input appears to be a " ++ t
          ++ ".\n\nPlease use the correct command: `/" ++ t ++ " " ++ q ++ "`")]) ∧
    ∀ ps, Act.apiRequest ps ∉ (_process_osint_query st uid q query_type key oracle).2 := by
  have hb : (t != query_type) = true := bne_iff_ne.mpr hne
  constructor
  · simp [_process_osint_query, hval, hb]
  · intro ps
    simp [_process_osint_query, hval, hb]

theorem c6_witness :
    vehicle_command ⟨[(1, true)], []⟩ 1 ["9177075666"] "dark"
        (fun _ => .connectTimeout)
      = (⟨[(1, true)], []⟩,
         [.reply ("❌ **Query Type Mismatch:**\nYou used `/vehicle` command but the input appears to be a phone.\n\nPlease use the correct command: `/phone 9177075666`")]) := by
  have h := c6_type_mismatch ⟨[(1, true)], []⟩ 1 "9177075666" "phone" "9177075666"
    "vehicle" "dark" (fun _ => .connectTimeout) (by decide) (by decide)
  have e : vehicle_command ⟨[(1, true)], []⟩ 1 ["9177075666"] "dark"
        (fun _ => .connectTimeout)
      = _process_osint_query ⟨[(1, true)], []⟩ 1 "9177075666" "vehicle" "dark"
        (fun _ => .connectTimeout) := rfl
  rw [e, h.1]
  rfl

/-- C9 (amended): the `require_subscription` wrapper writes the usage-log
entry — command name plus joined arguments, or the `N/A` placeholder —
after the access check and before delegating to the wrapped command; the
gated commands of the current source do not use the wrapper and leave the
usage log untouched. -/
theorem c9_wrapper_logging_amended :
    (∀ (funcName : String) (wrapped : Store → Int → List String → Store × List Act)
       (st : Store) (uid : Int) (args : List String),
       is_user_subscribed st uid = true →
       require_subscription funcName wrapped st uid args
         = wrapped (log_usage st uid funcName
             (if args.isEmpty then "N/A" else String.intercalate " " args)) uid args ∧
       (log_usage st uid funcName
           (if args.isEmpty then "N/A" else String.intercalate " " args)).log
         = st.log ++ [(uid, funcName,
             if args.isEmpty then "N/A" else String.intercalate " " args)]) ∧
    (∀ (st : Store) (uid : Int) (args : List String) (key : String)
       (oracle : Nat → HttpOutcome),
       (osint_command st uid args key oracle).1.log = st.log ∧
       (phone_command st uid args key oracle).1.log = st.log ∧
       (vehicle_command st uid args key oracle).1.log = st.log ∧
       (aadhar_command st uid args key oracle).1.log = st.log ∧
       (upi_command st uid args key oracle).1.log = st.log) := by
  constructor
  · intro funcName wrapped st uid args hsub
    have ha : add_user st uid = st := add_user_of_subscribed hsub
    exact ⟨by simp [require_subscription, ha, hsub], rfl⟩
  · intro st uid args key oracle
    refine ⟨?_, ?_, ?_, ?_, ?_⟩
    · rw [osint_command_fst]; exact add_user_log st uid
    · rw [phone_command_fst]; exact add_user_log st uid
    · rw [vehicle_command_fst]; exact add_user_log st uid
    · rw [aadhar_command_fst]; exact add_user_log st uid
    · rw [upi_command_fst]; exact add_user_log st uid

/-- C9 counterexample: a subscribed caller's `/phone` lookup reaches the
upstream request (the command's main behaviour runs), yet no usage-log
entry is written to the Store, contradicting the claim that every gated
command logs before its main behaviour. -/
theorem c9_counterexample :
    is_user_subscribed ⟨[(1, true)], []⟩ 1 = true ∧
    (phone_command ⟨[(1, true)], []⟩ 1 ["9177075666"] "dark"
        (fun _ => .status 200 (.json (.obj [])))).1.log = [] ∧
    Act.apiRequest [("key", "dark"), ("number", "9177075666")]
      ∈ (phone_command ⟨[(1, true)], []⟩ 1 ["9177075666"] "dark"
          (fun _ => .status 200 (.json (.obj [])))).2 :=
  ⟨by decide, by decide, by decide⟩

theorem c9_witness :
    require_subscription "phone" (fun st _ _ => (st, [Act.reply "ok"]))
        ⟨[(1, true)], []⟩ 1 ["x"]
      = (log_usage ⟨[(1, true)], []⟩ 1 "phone" "x", [Act.reply "ok"]) ∧
    (log_usage ⟨[(1, true)], []⟩ 1 "phone" "x").log = [(1, "phone", "x")] := by
  have h := c9_wrapper_logging_amended.1 "phone"
    (fun st _ _ => (st, [Act.reply "ok"])) ⟨[(1, true)], []⟩ 1 ["x"] (by decide)
  exact ⟨h.1, by decide⟩

/-- C2 (amended): `is_admin` is true iff the configured admin identity is
present, non-zero, and equals the caller — Python truthiness makes a
configured identity of 0 behave as absent; consequently every admin-only
command (`/grant`, `/userinfo`, `/admin`) replies access-denied to every
caller whose identity differs from the configured admin, regardless of the
supplied arguments. -/
theorem c2_admin_gate_amended :
    (∀ (a : Option Int) (u : Int),
       is_admin a u = true ↔ ∃ v, a = some v ∧ v ≠ 0 ∧ u = v) ∧
    (∀ (a : Option Int) (u : Int) (st : Store) (args : List String)
       (callerName autoRef : String) (rows : Int → UserRow),
       (∀ v, a = some v → u ≠ v) →
       grant_command a st u args callerName autoRef = (st, [.reply accessDeniedText]) ∧
       userinfo_command a st u args rows = (st, [.reply accessDeniedText]) ∧
       admin_command a st u = (st, [.reply accessDeniedText])) := by
  constructor
  · intro a u
    cases a with
    | none => simp [is_admin]
    | some v =>
      simp only [is_admin, Bool.and_eq_true, Bool.not_eq_true',
        beq_eq_false_iff_ne, beq_iff_eq]
      constructor
      · rintro ⟨h0, rfl⟩
        exact ⟨u, rfl, h0, rfl⟩
      · rintro ⟨w, hw, h0, rfl⟩
        injection hw with hvw
        subst hvw
        exact ⟨h0, rfl⟩
  · intro a u st args callerName autoRef rows hne
    have hadm : is_admin a u = false := by
      cases a with
      | none => rfl
      | some v =>
        by_cases h0 : v = 0
        · subst h0; simp [is_admin]
        · have hv : u ≠ v := hne v rfl
          simp [is_admin, beq_eq_false_iff_ne.mpr hv]
    exact ⟨by simp [grant_command, hadm], by simp [userinfo_command, hadm],
      by simp [admin_command, hadm]⟩

/-- C2 counterexample: with configured admin identity 0 — non-absent and
equal to the caller's identity — `is_admin` is still false, because the
Python expression `self.admin_id and user_id == self.admin_id` is falsy
when `admin_id` is 0. -/
theorem c2_counterexample :
    (some (0 : Int) ≠ (none : Option Int)) ∧ is_admin (some 0) 0 = false :=
  ⟨by decide, by decide⟩

theorem c2_witness :
    is_admin (some 5) 5 = true ∧
    grant_command (some 5) ⟨[], []⟩ 4 [] "A" "R" = (⟨[], []⟩, [.reply accessDeniedText]) := by
  constructor
  · exact (c2_admin_gate_amended.1 (some 5) 5).mpr ⟨5, rfl, by decide, rfl⟩
  · exact (c2_admin_gate_amended.2 (some 5) 4 ⟨[], []⟩ [] "A" "R"
      (fun _ => ⟨0, none, "", none, "", "", none, none, 0, none, 0, none⟩)
      (by intro v hv; injection hv with h; subst h; decide)).1

/-! ### API client retry facts -/

lemma callRun_stop {oracle : Nat → HttpOutcome}
    (h : retryable (oracle 0) = false) :
    callApiAttempts oracle = (terminalResult (oracle 0), 1, []) := by
  rw [show callApiAttempts oracle = apiGo oracle 3 [0, 1, 2] from rfl]
  simp [apiGo, h]

lemma callRun_retry1 {oracle : Nat → HttpOutcome}
    (h0 : retryable (oracle 0) = true) (h1 : retryable (oracle 1) = false) :
    callApiAttempts oracle
      = (terminalResult (oracle 1), 2, [sleepFor 0 (oracle 0)]) := by
  rw [show callApiAttempts oracle = apiGo oracle 3 [0, 1, 2] from rfl]
  simp [apiGo, h0, h1]

lemma callRun_retry2 {oracle : Nat → HttpOutcome}
    (h0 : retryable (oracle 0) = true) (h1 : retryable (oracle 1) = true) :
    callApiAttempts oracle
      = (terminalResult (oracle 2), 3,
         [sleepFor 0 (oracle 0), sleepFor 1 (oracle 1)]) := by
  rw [show callApiAttempts oracle = apiGo oracle 3 [0, 1, 2] from rfl]
  simp [apiGo, h0, h1]

lemma callRun_cases (oracle : Nat → HttpOutcome) :
    (retryable (oracle 0) = false
      ∧ callApiAttempts oracle = (terminalResult (oracle 0), 1, []))
    ∨ (retryable (oracle 0) = true ∧ retryable (oracle 1) = false
      ∧ callApiAttempts oracle = (terminalResult (oracle 1), 2, [sleepFor 0 (oracle 0)]))
    ∨ (retryable (oracle 0) = true ∧ retryable (oracle 1) = true
      ∧ callApiAttempts oracle
        = (terminalResult (oracle 2), 3,
           [sleepFor 0 (oracle 0), sleepFor 1 (oracle 1)])) := by
  cases h0 : retryable (oracle 0) with
  | false => exact Or.inl ⟨rfl, callRun_stop h0⟩
  | true =>
    cases h1 : retryable (oracle 1) with
    | false => exact Or.inr (Or.inl ⟨rfl, rfl, callRun_retry1 h0 h1⟩)
    | true => exact Or.inr (Or.inr ⟨rfl, rfl, callRun_retry2 h0 h1⟩)

lemma attempts_pos (oracle : Nat → HttpOutcome) :
    1 ≤ (callApiAttempts oracle).2.1 := by
  rcases callRun_cases oracle with ⟨_, hc⟩ | ⟨_, _, hc⟩ | ⟨_, _, hc⟩ <;>
    rw [hc] <;> norm_num

/-- C4: an email, ip, domain, url or username query makes `call_osint_api`
return the unsupported-type failure immediately with zero HTTP requests;
only phone, vehicle, aadhaar and upi map to the upstream parameters
`number`, `vehicle`, `aadhaar`, `upi`, and a supported query issues at
least one GET whose parameters are the API key plus the mapped parameter. -/
theorem c4_api_unsupported (oracle : Nat → HttpOutcome) :
    (∀ t ∈ ["email", "ip", "domain", "url", "username"], ∀ q key : String,
      call_osint_api q t key oracle
        = (.err ("Query type " ++ squote ++ t ++ squote
            ++ " is not supported by the current OSINT API"), [], [])) ∧
    paramName "phone" = some "number" ∧ paramName "vehicle" = some "vehicle" ∧
    paramName "aadhaar" = some "aadhaar" ∧ paramName "upi" = some "upi" ∧
    (∀ t p, paramName t = some p → ∀ q key : String,
      1 ≤ (call_osint_api q t key oracle).2.1.length ∧
      ∀ r ∈ (call_osint_api q t key oracle).2.1, r = [("key", key), (p, q)]) := by
  refine ⟨?_, rfl, rfl, rfl, rfl, ?_⟩
  · intro t ht q key
    rcases (by simpa using ht :
        t = "email" ∨ t = "ip" ∨ t = "domain" ∨ t = "url" ∨ t = "username") with
      rfl | rfl | rfl | rfl | rfl <;> rfl
  · intro t p hp q key
    constructor
    · simp only [call_osint_api, hp, List.length_replicate]
      exact attempts_pos oracle
    · intro r hr
      simp only [call_osint_api, hp] at hr
      exact List.eq_of_mem_replicate hr

theorem c4_witness :
    call_osint_api "x" "email" "dark" (fun _ => .connectTimeout)
      = (.err ("Query type " ++ squote ++ "email" ++ squote
          ++ " is not supported by the current OSINT API"), [], []) :=
  (c4_api_unsupported (fun _ => .connectTimeout)).1 "email" (by decide) "x" "dark"

/-- C5: the retry loop makes between 1 and 3 HTTP attempts; a further
attempt happens only after a retryable outcome (HTTP 429, HTTP ≥ 500, or a
caught transport error), never after an HTTP 200, 404 or 401, whose mapped
result is returned at once; each retry sleeps attempt-index × 1 second
after a 429 and a flat 1 second otherwise; the final result is the mapped
result of the last attempt's outcome; and a supported query issues at most
3 requests. -/
theorem c5_api_retry_policy (oracle : Nat → HttpOutcome) :
    (1 ≤ (callApiAttempts oracle).2.1 ∧ (callApiAttempts oracle).2.1 ≤ 3) ∧
    (∀ i, i + 1 < (callApiAttempts oracle).2.1 → retryable (oracle i) = true) ∧
    (∀ (i c : Nat) (b : HttpBody), oracle i = .status c b →
      c = 200 ∨ c = 404 ∨ c = 401 →
      i < (callApiAttempts oracle).2.1 → (callApiAttempts oracle).2.1 = i + 1) ∧
    (retryable (oracle 0) = true → 2 ≤ (callApiAttempts oracle).2.1) ∧
    (retryable (oracle 0) = true → retryable (oracle 1) = true →
      (callApiAttempts oracle).2.1 = 3) ∧
    ((callApiAttempts oracle).2.2
      = (List.range ((callApiAttempts oracle).2.1 - 1)).map
          (fun i => sleepFor i (oracle i))) ∧
    (∀ (i : Nat) (b : HttpBody), sleepFor i (.status 429 b) = 1 * (i + 1)) ∧
    ((∀ (i c : Nat) (b : HttpBody), c ≠ 429 → sleepFor i (.status c b) = 1) ∧
      ∀ i : Nat, sleepFor i .connectTimeout = 1 ∧ sleepFor i .readTimeout = 1 ∧
        sleepFor i .connectionError = 1 ∧ sleepFor i .otherException = 1) ∧
    ((callApiAttempts oracle).1
      = terminalResult (oracle ((callApiAttempts oracle).2.1 - 1))) ∧
    (∀ q t p key : String, paramName t = some p →
      (call_osint_api q t key oracle).2.1.length ≤ 3) := by
  have hG : ∀ (i : Nat) (b : HttpBody), sleepFor i (.status 429 b) = 1 * (i + 1) := by
    intro i b; simp [sleepFor]
  have hH1 : ∀ (i c : Nat) (b : HttpBody), c ≠ 429 → sleepFor i (.status c b) = 1 := by
    intro i c b hc
    simp [sleepFor, beq_eq_false_iff_ne.mpr hc]
  have hH2 : ∀ i : Nat, sleepFor i .connectTimeout = 1 ∧ sleepFor i .readTimeout = 1 ∧
      sleepFor i .connectionError = 1 ∧ sleepFor i .otherException = 1 :=
    fun _ => ⟨rfl, rfl, rfl, rfl⟩
  have hJ : ∀ (q t p key : String), paramName t = some p →
      (call_osint_api q t key oracle).2.1.length = (callApiAttempts oracle).2.1 := by
    intro q t p key hp
    simp [call_osint_api, hp]
  have hterm : ∀ (i c : Nat) (b : HttpBody), oracle i = .status c b →
      c = 200 ∨ c = 404 ∨ c = 401 → retryable (oracle i) = false := by
    intro i c b hoc hor
    rw [hoc]
    rcases hor with rfl | rfl | rfl <;> rfl
  rcases callRun_cases oracle with ⟨h0, hc⟩ | ⟨h0, h1, hc⟩ | ⟨h0, h1, hc⟩
  · rw [hc]
    dsimp only
    refine ⟨⟨by norm_num, by norm_num⟩, ?_, ?_, ?_, ?_, by simp, hG, ⟨hH1, hH2⟩, rfl, ?_⟩
    · intro i hi; exact absurd hi (by omega)
    · intro i c b _ _ hi
      omega
    · intro hr; rw [h0] at hr; exact absurd hr (by simp)
    · intro hr _; rw [h0] at hr; exact absurd hr (by simp)
    · intro q t p key hp
      rw [hJ q t p key hp, hc]
      norm_num
  · rw [hc]
    dsimp only
    refine ⟨⟨by norm_num, by norm_num⟩, ?_, ?_, ?_, ?_, by simp [List.range_succ],
      hG, ⟨hH1, hH2⟩, rfl, ?_⟩
    · intro i hi
      have : i = 0 := by omega
      subst this; exact h0
    · intro i c b hoc hor hi
      have hretr := hterm i c b hoc hor
      interval_cases i
      · rw [hretr] at h0; exact absurd h0 (by simp)
      · rfl
    · intro _; norm_num
    · intro _ hr1; rw [h1] at hr1; exact absurd hr1 (by simp)
    · intro q t p key hp
      rw [hJ q t p key hp, hc]
      norm_num
  · rw [hc]
    dsimp only
    refine ⟨⟨by norm_num, by norm_num⟩, ?_, ?_, ?_, ?_, by simp [List.range_succ],
      hG, ⟨hH1, hH2⟩, rfl, ?_⟩
    · intro i hi
      have h2 : i = 0 ∨ i = 1 := by omega
      rcases h2 with rfl | rfl
      · exact h0
      · exact h1
    · intro i c b hoc hor hi
      have hretr := hterm i c b hoc hor
      have h2 : i = 0 ∨ i = 1 ∨ i = 2 := by omega
      rcases h2 with rfl | rfl | rfl
      · rw [hretr] at h0; exact absurd h0 (by simp)
      · rw [hretr] at h1; exact absurd h1 (by simp)
      · rfl
    · intro _; norm_num
    · intro _ _; rfl
    · intro q t p key hp
      rw [hJ q t p key hp, hc]

theorem c5_witness :
    (callApiAttempts fun _ => HttpOutcome.status 500 (.text "")).2.1 = 3 :=
  (c5_api_retry_policy (fun _ => .status 500 (.text ""))).2.2.2.2.1
    (by decide) (by decide)

/-- C8: code-bug witness for the formatter footer.  For mapping payloads the
footer is the payload's own `timestamp` or `Just now`; for a plain-string
payload the `Data:` line renders the string verbatim but the footer lookup
`data.get('timestamp', …)` raises `AttributeError`, so the output ends with
the raw-dump fallback and no footer is produced. -/
theorem c8_formatter_string_payload :
    format_osint_response "q" (.str "hello") "phone"
      = "� **OSINT Results for:** `q`\n📊 **Query Type:** PHONE\n\n"
        ++ "**Data:** hello\n"
        ++ "**Raw API Response:**\n```json\nhello...\n```" ∧
    format_osint_response "q" (.obj [("message", .str "hi")]) "phone"
      = "� **OSINT Results for:** `q`\n📊 **Query Type:** PHONE\n\n"
        ++ "ℹ️ **hi**\n"
        ++ "\n🕐 **Queried:** Just now" ∧
    format_osint_response "q" (.obj [("message", .str "hi"), ("timestamp", .str "T1")]) "phone"
      = "� **OSINT Results for:** `q`\n📊 **Query Type:** PHONE\n\n"
        ++ "ℹ️ **hi**\n"
        ++ "\n🕐 **Queried:** T1" :=
  ⟨by decide, by decide, by decide⟩
